import Mathlib

/-!
Shallow embedding of `cloudflare_ddns_updater.py`, a single-shot DDNS
reconciler: it resolves the machine's public IP from an IP-echo service,
looks up the Cloudflare A record for a configured name, and issues a PUT
only when the two addresses differ.

HTTP traffic is modelled by injected session behaviours (the Python code
takes a `session` parameter for exactly this purpose): each behaviour says
whether the call raises a transport error or yields a response with a
status code and a body.  JSON bodies are modelled at the shape the code
reads them: a record dict with the five keys the updater touches, and an
error payload with `errors` / `messages` lists.  Python exceptions that the
code does not catch (`KeyError` from `d["k"]` on a missing key) are modelled
with `Except`.
-/

set_option linter.unusedVariables false

namespace DDNS

/-- Log levels used by the script (`logging.info` / `logging.error`). -/
inductive LogLevel where
  | info
  | error
  deriving DecidableEq, Repr

/-- One emitted log line: level plus the fully formatted message. -/
structure LogEntry where
  level : LogLevel
  msg : String
  deriving DecidableEq, Repr

/-- Python `KeyError` raised by `d["k"]` when the key is absent. -/
inductive PyExc where
  | keyError (key : String)
  deriving DecidableEq, Repr

/- String helpers: substring containment, used for the placeholder check
(`"TOKEN" in token_upper`) and for stating properties about log text. -/

/-- `startsWithChars n h` is true when the char list `n` is an initial
segment of `h`. -/
def startsWithChars : List Char → List Char → Bool
  | [], _ => true
  | _ :: _, [] => false
  | n :: ns, h :: hs => n == h && startsWithChars ns hs

/-- `containsChars n h` is true when the char list `n` occurs contiguously
inside `h` (Python's `n in h` for strings). -/
def containsChars (needle : List Char) : List Char → Bool
  | [] => startsWithChars needle []
  | h :: hs => startsWithChars needle (h :: hs) || containsChars needle hs

/-- `strContains haystack needle` models Python's `needle in haystack`. -/
def strContains (haystack needle : String) : Bool :=
  containsChars needle.data haystack.data

/-- `joinSep sep l` models Python's `sep.join(l)`. -/
def joinSep (sep : String) : List String → String
  | [] => ""
  | [x] => x
  | x :: xs => x ++ sep ++ joinSep sep xs

/-- Python's `str.strip()`: remove leading and trailing whitespace. -/
def pyStrip (s : String) : String :=
  ⟨((s.data.dropWhile Char.isWhitespace).reverse.dropWhile Char.isWhitespace).reverse⟩

/-- Python's `str.upper()` on the characters the updater cares about. -/
def pyUpper (s : String) : String :=
  ⟨s.data.map Char.toUpper⟩

/- Constants from the top of the script. -/

def REQUEST_TIMEOUT_SECONDS : Nat := 10

def IPIFY_URL : String := "https://api.ipify.org?format=json"

def CLOUDFLARE_API_BASE : String := "https://api.cloudflare.com/client/v4"

/-- `@dataclass(frozen=True) class Config` — an immutable value with the
three credential/identity fields. -/
structure Config where
  api_token : String
  zone_id : String
  record_name : String
  deriving DecidableEq, Repr

/-- `load_config_from_env`: reads the three environment variables
(`os.environ.get(k) or ""`, then `.strip()`), reports every missing or
blank one, rejects an obvious placeholder token, and otherwise returns the
frozen `Config`.  The process environment is modelled as a partial map. -/
def load_config_from_env (environ : String → Option String) :
    Option Config × List LogEntry :=
  let api_token := pyStrip ((environ "CLOUDFLARE_API_TOKEN").getD "")
  let zone_id := pyStrip ((environ "CLOUDFLARE_ZONE_ID").getD "")
  let record_name := pyStrip ((environ "CLOUDFLARE_RECORD_NAME").getD "")
  let missing :=
    (if api_token = "" then ["CLOUDFLARE_API_TOKEN"] else []) ++
    (if zone_id = "" then ["CLOUDFLARE_ZONE_ID"] else []) ++
    (if record_name = "" then ["CLOUDFLARE_RECORD_NAME"] else [])
  if missing ≠ [] then
    (none,
      [⟨.error, "Missing required environment variable(s): " ++ joinSep ", " missing⟩])
  else
    let token_upper := pyUpper api_token
    if strContains token_upper "TOKEN" &&
        (strContains token_upper "YOUR" || strContains token_upper "CLOUDFLARE") then
      (none,
        [⟨.error, "CLOUDFLARE_API_TOKEN looks like a placeholder value. Set a real API token in .env."⟩])
    else
      (some ⟨api_token, zone_id, record_name⟩, [])

/-- `build_headers`. -/
def build_headers (api_token : String) : List (String × String) :=
  [("Authorization", "Bearer " ++ api_token), ("Content-Type", "application/json")]

/-- One entry of the provider's `errors` list: a dict whose `code` (an
integer when present) and `message` keys may be absent (`item.get`). -/
structure CfErrorItem where
  code : Option Int
  message : Option String
  deriving DecidableEq, Repr

/-- One entry of the provider's `messages` list.  A dict entry carries its
optional `message` key plus its Python `str()` rendering (used as the
`.get` fallback); any other value is used through its `str()` rendering. -/
inductive CfMessageItem where
  | fromDict (message : Option String) (rendered : String)
  | fromOther (rendered : String)
  deriving DecidableEq, Repr

/-- A DNS record dict as the updater reads it: the five keys it touches,
each possibly absent.  (Only dicts over these keys are modelled, so the
Python truthiness test `if not dns_record` is emptiness of all five.) -/
structure RecordDict where
  id : Option String
  name : Option String
  content : Option String
  ttl : Option Int
  proxied : Option Bool
  deriving DecidableEq, Repr

/-- Python truthiness of a (modelled) record dict: `{}` is falsy. -/
def RecordDict.isEmptyDict (r : RecordDict) : Bool :=
  r.id.isNone && r.name.isNone && r.content.isNone && r.ttl.isNone && r.proxied.isNone

/-- A Cloudflare response body as the updater reads it: either
`response.json()` raises (malformed body), or it yields a dict whose
`result`, `errors` and `messages` keys default to `[]` (`payload.get`). -/
inductive CfBody where
  | malformed
  | parsed (result : List RecordDict) (errors : List CfErrorItem) (messages : List CfMessageItem)
  deriving DecidableEq, Repr

/-- Rendering of the `code` field in `f"code={code}"`: the `.get` default
is the string `"unknown"`. -/
def codeText : Option Int → String
  | some c => toString c
  | none => "unknown"

/-- Rendering of the `message` field: the `.get` default is
`"unknown error"`. -/
def messageText : Option String → String
  | some m => m
  | none => "unknown error"

/-- Rendering of one `messages` entry: a dict yields
`message.get("message", str(message))`, anything else yields `str(message)`. -/
def renderMessageItem : CfMessageItem → String
  | .fromDict (some m) _ => m
  | .fromDict none rendered => rendered
  | .fromOther rendered => rendered

/-- `_extract_cloudflare_errors`: formats every `errors` entry as
`code=<code> message=<message>`, appends the rendered `messages` entries,
and joins with `"; "`.  An unparseable body (the `ValueError` branch)
yields the empty string. -/
def extract_cloudflare_errors : CfBody → String
  | .malformed => ""
  | .parsed _ errors messages =>
    joinSep "; "
      (errors.map (fun item =>
          "code=" ++ codeText item.code ++ " message=" ++ messageText item.message)
        ++ messages.map renderMessageItem)

/-- `response.raise_for_status()` raises `HTTPError` exactly for status
codes 400–599. -/
def isHttpError (status : Nat) : Bool :=
  decide (400 ≤ status) && decide (status < 600)

/-- JSON body of the IP-echo response: `response.json()` either raises
(malformed) or yields a dict whose `ip` key may be absent. -/
inductive IpBody where
  | malformed
  | parsed (ip : Option String)
  deriving DecidableEq, Repr

/-- Behaviour of the IP-echo GET: either the call raises a transport-level
`RequestException` (rendered as `errStr`), or it returns a response with a
status code and a body.  `errStr` stands for the `str()` of whichever
exception this response would make the code raise. -/
inductive IpSession where
  | transportError (errStr : String)
  | response (status : Nat) (errStr : String) (body : IpBody)
  deriving DecidableEq, Repr

/-- `get_current_ip`: GETs the IP-echo service and returns
`response.json()["ip"]`.  A `RequestException` anywhere in the `try`
(transport error, `raise_for_status` on 400–599, malformed JSON — requests'
`JSONDecodeError` is a `RequestException`) is caught, logged, and turned
into `None`.  A parseable 2xx-side body *lacking* the `ip` key raises
`KeyError`, which the `except` clause does not catch. -/
def get_current_ip (session : IpSession) :
    Except PyExc (Option String × List LogEntry) :=
  match session with
  | .transportError errStr =>
    .ok (none, [⟨.error, "Error getting current IP: " ++ errStr⟩])
  | .response status errStr body =>
    if isHttpError status then
      .ok (none, [⟨.error, "Error getting current IP: " ++ errStr⟩])
    else
      match body with
      | .malformed =>
        .ok (none, [⟨.error, "Error getting current IP: " ++ errStr⟩])
      | .parsed (some ip) => .ok (some ip, [])
      | .parsed none => .error (.keyError "ip")

/-- Behaviour of a Cloudflare API call (the record-listing GET or the
record-update PUT): a transport-level `RequestException` whose `.response`
attribute is `None`, or a response with a status code and a body.  When the
status is 400–599, `raise_for_status` raises an `HTTPError` carrying the
response, so the body is available for error-detail extraction. -/
inductive CfSession where
  | transportError (errStr : String)
  | response (status : Nat) (errStr : String) (body : CfBody)
  deriving DecidableEq, Repr

/-- `get_dns_record`: GETs the zone's record list filtered by type "A" and
name.  On success it returns the first entry of `result` (or `None` when
the list is empty, with no log line).  On any `RequestException` it logs —
with extracted error details when the exception carries a response whose
body yields any — and returns `None`. -/
def get_dns_record (zone_id record_name : String)
    (headers : List (String × String)) (session : CfSession) :
    Option RecordDict × List LogEntry :=
  match session with
  | .transportError errStr =>
    (none, [⟨.error, "Error getting DNS record: " ++ errStr⟩])
  | .response status errStr body =>
    if isHttpError status then
      let error_details := extract_cloudflare_errors body
      if error_details ≠ "" then
        (none,
          [⟨.error, "Error getting DNS record: " ++ errStr ++ " (" ++ error_details ++ ")"⟩])
      else
        (none, [⟨.error, "Error getting DNS record: " ++ errStr⟩])
    else
      match body with
      | .malformed =>
        (none, [⟨.error, "Error getting DNS record: " ++ errStr⟩])
      | .parsed records _ _ =>
        match records with
        | record :: _ => (some record, [])
        | [] => (none, [])

/-- The JSON payload `data` passed to `session.put`. -/
structure UpdatePayload where
  type : String
  name : String
  content : String
  ttl : Int
  proxied : Bool
  deriving DecidableEq, Repr

/-- Observable outcome of `update_dns_record` when it does not raise: the
request URL, the payload handed to `session.put`, the boolean return
value, and the emitted log lines. -/
structure UpdateCall where
  url : String
  data : UpdatePayload
  ok : Bool
  logs : List LogEntry
  deriving DecidableEq, Repr

/-- `update_dns_record`: reads `record["id"]` and `record["name"]`
(raising `KeyError` when absent — these subscripts sit outside the `try`),
defaults `ttl` to 1 and `proxied` to `False` via `record.get`, builds the
full replacement payload, and PUTs it.  A `RequestException` (transport
error, or `HTTPError` from `raise_for_status`) is caught, logged with any
extractable error details, and turned into `False`; otherwise the function
logs a confirmation and returns `True`. -/
def update_dns_record (zone_id : String) (record : RecordDict) (new_ip : String)
    (headers : List (String × String)) (session : CfSession) :
    Except PyExc UpdateCall :=
  match record.id with
  | none => .error (.keyError "id")
  | some record_id =>
  match record.name with
  | none => .error (.keyError "name")
  | some record_name =>
  let ttl := record.ttl.getD 1
  let proxied := record.proxied.getD false
  let url := CLOUDFLARE_API_BASE ++ "/zones/" ++ zone_id ++ "/dns_records/" ++ record_id
  let data : UpdatePayload :=
    { type := "A", name := record_name, content := new_ip, ttl := ttl, proxied := proxied }
  match session with
  | .transportError errStr =>
    .ok { url := url, data := data, ok := false,
          logs := [⟨.error, "Error updating DNS record: " ++ errStr⟩] }
  | .response status errStr body =>
    if isHttpError status then
      let error_details := extract_cloudflare_errors body
      if error_details ≠ "" then
        .ok { url := url, data := data, ok := false,
              logs := [⟨.error, "Error updating DNS record: " ++ errStr ++ " (" ++ error_details ++ ")"⟩] }
      else
        .ok { url := url, data := data, ok := false,
              logs := [⟨.error, "Error updating DNS record: " ++ errStr⟩] }
    else
      .ok { url := url, data := data, ok := true,
            logs := [⟨.info, "DNS record for " ++ record_name ++ " updated to " ++ new_ip⟩] }

/-- Observable outcome of one run of `main` when it does not raise.  The
two `Called` flags record whether the corresponding network call was made;
`updateData` is the payload handed to the PUT when one was issued.  (The
log lines of `main` itself are not modelled; the per-operation logs are
modelled on the operations above.) -/
structure RunResult where
  exitCode : Nat
  dnsLookupCalled : Bool
  updateCalled : Bool
  updateData : Option UpdatePayload
  deriving DecidableEq, Repr

/-- `main`: load config, resolve the public IP, look up the record, and
reconcile.  Python's falsy tests are modelled exactly: `if not current_ip`
is true for `None` and for `""`; `if not dns_record` is true for `None`
and for an empty dict.  `dns_record["content"]` raises `KeyError` when the
key is absent. -/
def main (environ : String → Option String) (ipSession : IpSession)
    (dnsSession : CfSession) (putSession : CfSession) :
    Except PyExc RunResult :=
  match load_config_from_env environ with
  | (none, _) =>
    .ok { exitCode := 1, dnsLookupCalled := false, updateCalled := false, updateData := none }
  | (some config, _) =>
    let headers := build_headers config.api_token
    match get_current_ip ipSession with
    | .error e => .error e
    | .ok (current_ip?, _) =>
      match current_ip? with
      | none =>
        .ok { exitCode := 1, dnsLookupCalled := false, updateCalled := false, updateData := none }
      | some current_ip =>
        if current_ip = "" then
          .ok { exitCode := 1, dnsLookupCalled := false, updateCalled := false, updateData := none }
        else
          match (get_dns_record config.zone_id config.record_name headers dnsSession).1 with
          | none =>
            .ok { exitCode := 1, dnsLookupCalled := true, updateCalled := false, updateData := none }
          | some dns_record =>
            if dns_record.isEmptyDict then
              .ok { exitCode := 1, dnsLookupCalled := true, updateCalled := false, updateData := none }
            else
              match dns_record.content with
              | none => .error (.keyError "content")
              | some existing_ip =>
                if current_ip = existing_ip then
                  .ok { exitCode := 0, dnsLookupCalled := true, updateCalled := false, updateData := none }
                else
                  match update_dns_record config.zone_id dns_record current_ip headers putSession with
                  | .error e => .error e
                  | .ok call =>
                    if call.ok then
                      .ok { exitCode := 0, dnsLookupCalled := true, updateCalled := true,
                            updateData := some call.data }
                    else
                      .ok { exitCode := 1, dnsLookupCalled := true, updateCalled := true,
                            updateData := some call.data }

/-- The public IP as `main` accepts it: `Some ip` exactly when
`get_current_ip` returned a non-empty string (Python's `if not current_ip`
rejects `None` and `""`). -/
def resolvedIp (ipSession : IpSession) : Option String :=
  match get_current_ip ipSession with
  | .ok (some s, _) => if s = "" then none else some s
  | _ => none

/-- The record as `main` accepts it: `Some r` exactly when the lookup
returned a record that is not the (falsy) empty dict. -/
def recordLookup (config : Config) (session : CfSession) : Option RecordDict :=
  match (get_dns_record config.zone_id config.record_name
      (build_headers config.api_token) session).1 with
  | some r => if r.isEmptyDict then none else some r
  | none => none

/-- Whether a PUT with this session behaviour makes `update_dns_record`
return `True`: no transport error and a status outside 400–599. -/
def putSucceeds : CfSession → Bool
  | .transportError _ => false
  | .response status _ _ => !(isHttpError status)

/-! ### Substring lemmas for the containment predicate -/

theorem startsWithChars_self_append (l t : List Char) :
    startsWithChars l (l ++ t) = true := by
  induction l with
  | nil => rfl
  | cons x xs ih => simp [startsWithChars, ih]

theorem startsWithChars_refl (l : List Char) : startsWithChars l l = true := by
  have h := startsWithChars_self_append l []
  simpa using h

theorem startsWithChars_extend (n : List Char) :
    ∀ h t : List Char, startsWithChars n h = true →
      startsWithChars n (h ++ t) = true := by
  induction n with
  | nil => intro h t _; rfl
  | cons x xs ih =>
    intro h t hs
    cases h with
    | nil => simp [startsWithChars] at hs
    | cons y ys =>
      simp only [startsWithChars, Bool.and_eq_true] at hs
      simp [startsWithChars, hs.1, ih ys t hs.2]

theorem containsChars_of_startsWith (n h : List Char)
    (hs : startsWithChars n h = true) : containsChars n h = true := by
  cases h with
  | nil => simpa [containsChars] using hs
  | cons y ys => simp [containsChars, hs]

theorem containsChars_nil_needle (h : List Char) : containsChars [] h = true := by
  cases h <;> simp [containsChars, startsWithChars]

theorem containsChars_append_left (n : List Char) :
    ∀ a b : List Char, containsChars n a = true →
      containsChars n (a ++ b) = true := by
  intro a
  induction a with
  | nil =>
    intro b hc
    cases n with
    | nil => exact containsChars_nil_needle b
    | cons x xs => simp [containsChars, startsWithChars] at hc
  | cons y ys ih =>
    intro b hc
    simp only [containsChars, Bool.or_eq_true] at hc
    rcases hc with hc | hc
    · have := startsWithChars_extend n (y :: ys) b hc
      simpa [containsChars] using Or.inl this
    · simpa [containsChars] using Or.inr (ih b hc)

theorem containsChars_append_right (n : List Char) :
    ∀ a b : List Char, containsChars n b = true →
      containsChars n (a ++ b) = true := by
  intro a
  induction a with
  | nil => intro b hc; simpa using hc
  | cons y ys ih =>
    intro b hc
    simpa [containsChars] using Or.inr (ih b hc)

theorem string_data_append (a b : String) : (a ++ b).data = a.data ++ b.data := rfl

theorem strContains_append_left (a b n : String)
    (h : strContains a n = true) : strContains (a ++ b) n = true := by
  simpa [strContains, string_data_append] using
    containsChars_append_left n.data a.data b.data h

theorem strContains_append_right (a b n : String)
    (h : strContains b n = true) : strContains (a ++ b) n = true := by
  simpa [strContains, string_data_append] using
    containsChars_append_right n.data a.data b.data h

theorem strContains_self (x : String) : strContains x x = true :=
  containsChars_of_startsWith x.data x.data (startsWithChars_refl x.data)

theorem joinSep_cons_cons (sep x y : String) (ys : List String) :
    joinSep sep (x :: y :: ys) = x ++ (sep ++ joinSep sep (y :: ys)) := by
  simp [joinSep, String.append_assoc]

theorem strContains_joinSep (sep : String) :
    ∀ l : List String, ∀ x : String, x ∈ l →
      strContains (joinSep sep l) x = true := by
  intro l
  induction l with
  | nil => intro x hx; cases hx
  | cons y ys ih =>
    intro x hx
    cases ys with
    | nil =>
      rcases List.mem_singleton.mp hx with rfl
      simpa [joinSep] using strContains_self x
    | cons z zs =>
      rw [joinSep_cons_cons]
      rcases List.mem_cons.mp hx with rfl | hx
      · exact strContains_append_left x (sep ++ joinSep sep (z :: zs)) x (strContains_self x)
      · exact strContains_append_right y (sep ++ joinSep sep (z :: zs)) x
          (strContains_append_right sep (joinSep sep (z :: zs)) x (ih x hx))

/-! ### Claim C9 — structured error-detail extraction -/

/-- Claim C9: for every HTTP error response, the error-detail extraction
returns a string listing each provider error as `code=<code> message=<message>`
plus any free-text messages — so the 400 body
`{"errors":[{"code":6003,"message":"Invalid request headers"}]}` yields a
detail string containing `code=6003` and the message text — and for every
response whose body is not parseable JSON, extraction returns empty details
without raising a secondary failure. -/
theorem extract_errors_lists_all_details :
    (∀ result errors messages item, item ∈ errors →
      strContains (extract_cloudflare_errors (.parsed result errors messages))
        ("code=" ++ codeText item.code ++ " message=" ++ messageText item.message) = true) ∧
    (∀ result errors messages m, m ∈ messages →
      strContains (extract_cloudflare_errors (.parsed result errors messages))
        (renderMessageItem m) = true) ∧
    extract_cloudflare_errors .malformed = "" ∧
    strContains
      (extract_cloudflare_errors
        (.parsed [] [⟨some 6003, some "Invalid request headers"⟩] []))
      "code=6003" = true ∧
    strContains
      (extract_cloudflare_errors
        (.parsed [] [⟨some 6003, some "Invalid request headers"⟩] []))
      "Invalid request headers" = true := by
  refine ⟨?_, ?_, rfl, by decide, by decide⟩
  · intro result errors messages item hitem
    exact strContains_joinSep "; " _ _
      (List.mem_append_left _ (List.mem_map_of_mem _ hitem))
  · intro result errors messages m hm
    exact strContains_joinSep "; " _ _
      (List.mem_append_right _ (List.mem_map_of_mem _ hm))

/-- Witness for C9: the concrete 6003 error entry produces its formatted
detail inside the extracted string. -/
theorem extract_errors_lists_all_details_witness :
    strContains
      (extract_cloudflare_errors
        (.parsed [] [⟨some 6003, some "Invalid request headers"⟩] []))
      ("code=" ++ codeText (some 6003) ++ " message=" ++
        messageText (some "Invalid request headers")) = true :=
  extract_errors_lists_all_details.1 [] [⟨some 6003, some "Invalid request headers"⟩] []
    ⟨some 6003, some "Invalid request headers"⟩ (List.mem_singleton.mpr rfl)

/-! ### Claim C10 — configuration loading invariants -/

/-- Claim C10: every `Config` that `load_config_from_env` returns has each
field equal to the corresponding environment value with surrounding
whitespace stripped, and each field non-empty; an environment variable that
is absent or strips to the empty string (in particular a whitespace-only
value) makes loading fail.  (Immutability of the returned value is the
`frozen=True` dataclass, modelled here as a plain structure value.) -/
theorem load_config_strips_and_requires_nonempty :
    (∀ environ config, (load_config_from_env environ).1 = some config →
      config.api_token = pyStrip ((environ "CLOUDFLARE_API_TOKEN").getD "") ∧
      config.zone_id = pyStrip ((environ "CLOUDFLARE_ZONE_ID").getD "") ∧
      config.record_name = pyStrip ((environ "CLOUDFLARE_RECORD_NAME").getD "") ∧
      config.api_token ≠ "" ∧ config.zone_id ≠ "" ∧ config.record_name ≠ "") ∧
    (∀ environ,
      (pyStrip ((environ "CLOUDFLARE_API_TOKEN").getD "") = "" ∨
       pyStrip ((environ "CLOUDFLARE_ZONE_ID").getD "") = "" ∨
       pyStrip ((environ "CLOUDFLARE_RECORD_NAME").getD "") = "") →
      (load_config_from_env environ).1 = none) := by
  constructor
  · intro environ config h
    by_cases h1 : pyStrip ((environ "CLOUDFLARE_API_TOKEN").getD "") = "" <;>
      by_cases h2 : pyStrip ((environ "CLOUDFLARE_ZONE_ID").getD "") = "" <;>
      by_cases h3 : pyStrip ((environ "CLOUDFLARE_RECORD_NAME").getD "") = "" <;>
      simp only [load_config_from_env, h1, h2, h3] at h <;>
      simp_all
    split at h
    · simp at h
    · simp only [Option.some.injEq] at h
      subst h
      simp [h1, h2, h3]
  · intro environ hd
    rcases hd with h1 | h2 | h3
    · simp [load_config_from_env, h1]
    · simp [load_config_from_env, h2]
    · simp [load_config_from_env, h3]

/-- A concrete environment for witnesses: three variables set, the token
padded with whitespace and not placeholder-like. -/
def envSample : String → Option String := fun k =>
  if k = "CLOUDFLARE_API_TOKEN" then some " abc123 "
  else if k = "CLOUDFLARE_ZONE_ID" then some "zone123"
  else if k = "CLOUDFLARE_RECORD_NAME" then some "a.example.com"
  else none

/-- The configuration `envSample` loads to. -/
def configSample : Config := ⟨"abc123", "zone123", "a.example.com"⟩

/-- Witness for C10: on `envSample` the loader returns the stripped,
non-empty fields. -/
theorem load_config_strips_and_requires_nonempty_witness :
    configSample.api_token = pyStrip ((envSample "CLOUDFLARE_API_TOKEN").getD "") ∧
    configSample.zone_id = pyStrip ((envSample "CLOUDFLARE_ZONE_ID").getD "") ∧
    configSample.record_name = pyStrip ((envSample "CLOUDFLARE_RECORD_NAME").getD "") ∧
    configSample.api_token ≠ "" ∧ configSample.zone_id ≠ "" ∧
    configSample.record_name ≠ "" :=
  load_config_strips_and_requires_nonempty.1 envSample configSample (by rfl)

/-! ### Claims C2 / C3 — update payload preservation and defaults -/

/-- Claim C2: for every existing record carrying an explicit TTL and proxy
flag, an update sends a PUT payload whose type is `"A"`, whose name is the
record's existing name, whose content is the new IP, and whose `ttl` and
`proxied` equal the record's existing values — only `content` differs from
the record's prior state. -/
theorem update_preserves_ttl_and_proxied :
    ∀ (zone_id : String) (record : RecordDict) (new_ip : String)
      (headers : List (String × String)) (session : CfSession)
      (record_id record_name : String) (t : Int) (p : Bool),
      record.id = some record_id → record.name = some record_name →
      record.ttl = some t → record.proxied = some p →
      ∃ call, update_dns_record zone_id record new_ip headers session = .ok call ∧
        call.data = ⟨"A", record_name, new_ip, t, p⟩ := by
  intro zone_id record new_ip headers session record_id record_name t p h1 h2 h3 h4
  obtain ⟨i, n, c, tt, pp⟩ := record
  simp only at h1 h2 h3 h4
  subst h1; subst h2; subst h3; subst h4
  cases session with
  | transportError errStr => exact ⟨_, rfl, rfl⟩
  | response status errStr body =>
    dsimp only [update_dns_record]
    split_ifs <;> exact ⟨_, rfl, rfl⟩

/-- A record with explicit TTL 300 and `proxied=true` (the spec's
preservation scenario). -/
def recordExplicit : RecordDict :=
  ⟨some "r1", some "a.example.com", some "1.2.3.4", some 300, some true⟩

/-- Witness for C2: updating `recordExplicit` to `8.8.8.8` sends TTL 300 and
`proxied=true` unchanged. -/
theorem update_preserves_ttl_and_proxied_witness :
    ∃ call, update_dns_record "zone123" recordExplicit "8.8.8.8" []
        (.response 200 "" (.parsed [] [] [])) = .ok call ∧
      call.data = ⟨"A", "a.example.com", "8.8.8.8", 300, true⟩ :=
  update_preserves_ttl_and_proxied "zone123" recordExplicit "8.8.8.8" []
    (.response 200 "" (.parsed [] [] [])) "r1" "a.example.com" 300 true
    rfl rfl rfl rfl

/-- Claim C3: for a record dict lacking an explicit `ttl` or `proxied` key,
`update_dns_record` substitutes TTL 1 and `proxied=false` respectively in
the PUT payload it sends. -/
theorem update_defaults_ttl_and_proxied :
    ∀ (zone_id : String) (record : RecordDict) (new_ip : String)
      (headers : List (String × String)) (session : CfSession)
      (record_id record_name : String),
      record.id = some record_id → record.name = some record_name →
      ∃ call, update_dns_record zone_id record new_ip headers session = .ok call ∧
        (record.ttl = none → call.data.ttl = 1) ∧
        (record.proxied = none → call.data.proxied = false) := by
  intro zone_id record new_ip headers session record_id record_name h1 h2
  obtain ⟨i, n, c, tt, pp⟩ := record
  replace h1 : i = some record_id := h1
  replace h2 : n = some record_name := h2
  subst h1; subst h2
  have key : ∀ call : UpdateCall, call.data.ttl = tt.getD 1 →
      call.data.proxied = pp.getD false →
      ((tt = none → call.data.ttl = 1) ∧ (pp = none → call.data.proxied = false)) := by
    intro call hT hP
    constructor
    · rintro rfl; rw [hT]; rfl
    · rintro rfl; rw [hP]; rfl
  cases session with
  | transportError errStr => exact ⟨_, rfl, key _ rfl rfl⟩
  | response status errStr body =>
    dsimp only [update_dns_record]
    split_ifs <;> exact ⟨_, rfl, key _ rfl rfl⟩

/-- Witness for C3: a record with neither key gets TTL 1 and
`proxied=false`. -/
theorem update_defaults_ttl_and_proxied_witness :
    ∃ call, update_dns_record "zone123"
        ⟨some "r1", some "a.example.com", some "1.2.3.4", none, none⟩ "8.8.8.8" []
        (.response 200 "" (.parsed [] [] [])) = .ok call ∧
      ((⟨some "r1", some "a.example.com", some "1.2.3.4", none, none⟩ : RecordDict).ttl = none →
        call.data.ttl = 1) ∧
      ((⟨some "r1", some "a.example.com", some "1.2.3.4", none, none⟩ : RecordDict).proxied = none →
        call.data.proxied = false) :=
  update_defaults_ttl_and_proxied "zone123"
    ⟨some "r1", some "a.example.com", some "1.2.3.4", none, none⟩ "8.8.8.8" []
    (.response 200 "" (.parsed [] [] [])) "r1" "a.example.com" rfl rfl

/-! ### Claim C4 — first-match policy of the record lookup -/

/-- Claim C4: for every successful (2xx, parseable) lookup response, a
non-empty `result` list makes `get_dns_record` return exactly its first
entry, ignoring all later entries, and an empty `result` list makes it
return the not-found value `None`. -/
theorem get_dns_record_first_match :
    ∀ (zone_id record_name : String) (headers : List (String × String))
      (status : Nat) (errStr : String) (result : List RecordDict)
      (errors : List CfErrorItem) (messages : List CfMessageItem),
      200 ≤ status → status < 300 →
      ((∀ record rest, result = record :: rest →
          (get_dns_record zone_id record_name headers
            (.response status errStr (.parsed result errors messages))).1 = some record) ∧
       (result = [] →
          (get_dns_record zone_id record_name headers
            (.response status errStr (.parsed result errors messages))).1 = none)) := by
  intro zone_id record_name headers status errStr result errors messages h200 h300
  have hE : isHttpError status = false := by
    simp only [isHttpError, Bool.and_eq_false_iff, decide_eq_false_iff_not]
    omega
  constructor
  · rintro record rest rfl
    simp [get_dns_record, hE]
  · rintro rfl
    simp [get_dns_record, hE]

/-- A second sample record, to show later entries are ignored. -/
def recordOther : RecordDict :=
  ⟨some "r2", some "a.example.com", some "5.6.7.8", none, none⟩

/-- Witness for C4: with two entries in `result`, the lookup returns the
first and ignores the second. -/
theorem get_dns_record_first_match_witness :
    (get_dns_record "zone123" "a.example.com" []
      (.response 200 "ok" (.parsed [recordExplicit, recordOther] [] []))).1 =
      some recordExplicit :=
  (get_dns_record_first_match "zone123" "a.example.com" [] 200 "ok"
    [recordExplicit, recordOther] [] [] (by decide) (by decide)).1
    recordExplicit [recordOther] rfl

/-! ### Claim C6 — update boundary behaviour -/

/-- Counterexample to C6 as stated: `record["id"]` and `record["name"]`
are read outside the `try`, so a record dict lacking the `id` key makes
`update_dns_record` raise `KeyError` past its boundary instead of
returning a boolean. -/
theorem update_raises_keyerror_on_missing_id :
    update_dns_record "zone123"
      ⟨none, some "a.example.com", some "1.2.3.4", none, none⟩ "8.8.8.8" []
      (.response 200 "" (.parsed [] [] [])) = .error (.keyError "id") := rfl

/-- Claim C6 (amended): for every record dict that does carry `id` and
`name` keys, and every session behaviour, `update_dns_record` returns a
boolean — `True` exactly when the PUT neither raised a transport error nor
returned an HTTP error status (400–599), `False` on every failure. -/
theorem update_returns_bool_with_id_and_name :
    ∀ (zone_id : String) (record : RecordDict) (new_ip : String)
      (headers : List (String × String)) (session : CfSession)
      (record_id record_name : String),
      record.id = some record_id → record.name = some record_name →
      ∃ call, update_dns_record zone_id record new_ip headers session = .ok call ∧
        call.ok = putSucceeds session := by
  intro zone_id record new_ip headers session record_id record_name h1 h2
  obtain ⟨i, n, c, tt, pp⟩ := record
  replace h1 : i = some record_id := h1
  replace h2 : n = some record_name := h2
  subst h1; subst h2
  cases session with
  | transportError errStr => exact ⟨_, rfl, rfl⟩
  | response status errStr body =>
    dsimp only [update_dns_record]
    split_ifs with hE hd
    · exact ⟨_, rfl, by simp [putSucceeds, hE]⟩
    · exact ⟨_, rfl, by simp [putSucceeds, hE]⟩
    · exact ⟨_, rfl, by simp [putSucceeds, hE]⟩

/-- Witness for the amended C6: a well-formed record and a 400 response
give return value `False` without an exception. -/
theorem update_returns_bool_with_id_and_name_witness :
    ∃ call, update_dns_record "zone123" recordExplicit "8.8.8.8" []
        (.response 400 "400 Client Error"
          (.parsed [] [⟨some 6003, some "Invalid request headers"⟩] [])) = .ok call ∧
      call.ok = putSucceeds (.response 400 "400 Client Error"
        (.parsed [] [⟨some 6003, some "Invalid request headers"⟩] [])) :=
  update_returns_bool_with_id_and_name "zone123" recordExplicit "8.8.8.8" []
    (.response 400 "400 Client Error"
      (.parsed [] [⟨some 6003, some "Invalid request headers"⟩] []))
    "r1" "a.example.com" rfl rfl

/-! ### Claim C7 — IP-resolution failure handling -/

/-- Counterexample to C7 as stated: a 2xx response whose parseable JSON
body lacks the `ip` field makes `get_current_ip` raise `KeyError`
(`response.json()["ip"]`), not return the `None` failure signal. -/
theorem get_current_ip_raises_on_missing_ip_field :
    get_current_ip (.response 200 "ok" (.parsed none)) =
      .error (.keyError "ip") := rfl

/-- Claim C7 (amended): on a transport failure, an HTTP error status
(400–599), or a malformed JSON body, `get_current_ip` returns the `None`
failure signal; and whenever it returns `None`, `main` treats the run as
fatal — exit code 1 with neither the DNS lookup nor the update performed.
A 2xx response whose parseable body lacks the `ip` field instead raises
`KeyError`. -/
theorem get_current_ip_failure_is_fatal :
    (∀ errStr, ∃ logs, get_current_ip (.transportError errStr) = .ok (none, logs)) ∧
    (∀ status errStr body, isHttpError status = true →
      ∃ logs, get_current_ip (.response status errStr body) = .ok (none, logs)) ∧
    (∀ status errStr,
      ∃ logs, get_current_ip (.response status errStr .malformed) = .ok (none, logs)) ∧
    (∀ environ ipSession dnsSession putSession logs,
      get_current_ip ipSession = .ok (none, logs) →
      ∃ r, main environ ipSession dnsSession putSession = .ok r ∧
        r.exitCode = 1 ∧ r.dnsLookupCalled = false ∧ r.updateCalled = false) := by
  refine ⟨?_, ?_, ?_, ?_⟩
  · intro errStr; exact ⟨_, rfl⟩
  · intro status errStr body hE
    dsimp only [get_current_ip]
    rw [if_pos hE]
    exact ⟨_, rfl⟩
  · intro status errStr
    dsimp only [get_current_ip]
    split_ifs <;> exact ⟨_, rfl⟩
  · intro environ ipSession dnsSession putSession logs hip
    rcases hcfg : load_config_from_env environ with ⟨c?, lg⟩
    cases c? with
    | none =>
      refine ⟨⟨1, false, false, none⟩, ?_, rfl, rfl, rfl⟩
      simp [main, hcfg]
    | some config =>
      refine ⟨⟨1, false, false, none⟩, ?_, rfl, rfl, rfl⟩
      simp [main, hcfg, hip]

/-- Witness for the amended C7: a transport failure yields `None`, and on
that session `main` exits 1 without looking up or updating DNS. -/
theorem get_current_ip_failure_is_fatal_witness :
    ∃ r, main envSample (.transportError "network error")
        (.transportError "unused") (.transportError "unused") = .ok r ∧
      r.exitCode = 1 ∧ r.dnsLookupCalled = false ∧ r.updateCalled = false :=
  get_current_ip_failure_is_fatal.2.2.2 envSample (.transportError "network error")
    (.transportError "unused") (.transportError "unused")
    [⟨.error, "Error getting current IP: " ++ "network error"⟩] rfl

/-! ### Claim C8 — NotFound versus Failure at the lookup boundary -/

/-- Counterexample to C8 as stated: an empty-result 2xx lookup (NotFound)
and a transport failure (Failure) produce the *same* return value `None`,
so the lookup's result does not let the caller tell them apart. -/
theorem lookup_notfound_failure_same_value :
    (get_dns_record "zone123" "a.example.com" []
        (.response 200 "ok" (.parsed [] [] []))).1 = none ∧
    (get_dns_record "zone123" "a.example.com" []
        (.transportError "connection error")).1 = none := ⟨rfl, rfl⟩

/-- Claim C8 (amended): the lookup collapses NotFound and Failure into the
same returned value `None`; the two cases differ only in the log
side-channel — every transport or HTTP failure emits an error log line
inside `get_dns_record`, while an empty result list emits none. -/
theorem lookup_outcomes_collapse_logs_differ :
    (∀ zone_id record_name headers errStr,
      (get_dns_record zone_id record_name headers (.transportError errStr)).1 = none ∧
      (get_dns_record zone_id record_name headers (.transportError errStr)).2 ≠ []) ∧
    (∀ zone_id record_name headers status errStr body, isHttpError status = true →
      (get_dns_record zone_id record_name headers (.response status errStr body)).1 = none ∧
      (get_dns_record zone_id record_name headers (.response status errStr body)).2 ≠ []) ∧
    (∀ zone_id record_name headers status errStr errors messages,
      isHttpError status = false →
      get_dns_record zone_id record_name headers
        (.response status errStr (.parsed [] errors messages)) = (none, [])) := by
  refine ⟨?_, ?_, ?_⟩
  · intro zone_id record_name headers errStr
    exact ⟨rfl, by simp [get_dns_record]⟩
  · intro zone_id record_name headers status errStr body hE
    dsimp only [get_dns_record]
    rw [if_pos hE]
    split_ifs <;> simp
  · intro zone_id record_name headers status errStr errors messages hE
    dsimp only [get_dns_record]
    rw [if_neg (by simp [hE])]

/-- Witness for the amended C8: on a concrete transport failure the lookup
returns `None` with a non-empty log. -/
theorem lookup_outcomes_collapse_logs_differ_witness :
    (get_dns_record "zone123" "a.example.com" []
        (.transportError "connection error")).1 = none ∧
    (get_dns_record "zone123" "a.example.com" []
        (.transportError "connection error")).2 ≠ [] :=
  lookup_outcomes_collapse_logs_differ.1 "zone123" "a.example.com" [] "connection error"

/-! ### Claims C1 / C5 — the reconciliation run -/

/-- Helper: whenever `update_dns_record` returns (rather than raising),
its boolean is `putSucceeds` of the session behaviour. -/
theorem update_dns_record_ok_eq (zone_id : String) (record : RecordDict)
    (new_ip : String) (headers : List (String × String)) (session : CfSession)
    (call : UpdateCall)
    (h : update_dns_record zone_id record new_ip headers session = .ok call) :
    call.ok = putSucceeds session := by
  obtain ⟨i, n, c, tt, pp⟩ := record
  cases i with
  | none => exact absurd h (by simp [update_dns_record])
  | some record_id =>
    cases n with
    | none => exact absurd h (by simp [update_dns_record])
    | some record_name =>
      cases session with
      | transportError errStr =>
        simp only [update_dns_record, Except.ok.injEq] at h
        subst h; rfl
      | response status errStr body =>
        dsimp only [update_dns_record] at h
        split_ifs at h with hE hd <;>
          (simp only [Except.ok.injEq] at h; subst h; simp [putSucceeds, hE])

/-- Claim C1: when the resolved public IP equals the content of the
looked-up record, `main` performs no update call (no PUT, no payload) and
exits with code 0. -/
theorem reconcile_match_is_noop :
    ∀ (environ : String → Option String) (ipSession : IpSession)
      (dnsSession putSession : CfSession) (config : Config)
      (ip : String) (record : RecordDict),
      (load_config_from_env environ).1 = some config →
      resolvedIp ipSession = some ip →
      recordLookup config dnsSession = some record →
      record.content = some ip →
      ∃ r, main environ ipSession dnsSession putSession = .ok r ∧
        r.exitCode = 0 ∧ r.updateCalled = false ∧ r.updateData = none := by
  intro environ ipSession dnsSession putSession config ip record hcfg hip hrec hcontent
  rcases hload : load_config_from_env environ with ⟨c?, lg⟩
  rw [hload] at hcfg
  replace hcfg : c? = some config := hcfg
  subst hcfg
  rcases hcur : get_current_ip ipSession with e | ⟨ip?, iplogs⟩
  · simp [resolvedIp, hcur] at hip
  · cases ip? with
    | none => simp [resolvedIp, hcur] at hip
    | some current_ip =>
      have hne : ¬ current_ip = "" := by
        intro h0
        rw [resolvedIp, hcur] at hip
        simp [h0] at hip
      have hipeq : current_ip = ip := by
        rw [resolvedIp, hcur] at hip
        simpa [hne] using hip
      subst hipeq
      rcases hdns : (get_dns_record config.zone_id config.record_name
          (build_headers config.api_token) dnsSession).1 with _ | dns_record
      · rw [recordLookup, hdns] at hrec; simp at hrec
      · have hrec' : (if dns_record.isEmptyDict then none else some dns_record) =
            some record := by
          rw [recordLookup, hdns] at hrec; exact hrec
        have hemp : dns_record.isEmptyDict = false := by
          cases hb : dns_record.isEmptyDict
          · rfl
          · rw [if_pos hb] at hrec'
            exact Option.noConfusion hrec'
        rw [if_neg (by simp [hemp])] at hrec'
        replace hrec' : dns_record = record := Option.some.inj hrec'
        subst hrec'
        refine ⟨⟨0, true, false, none⟩, ?_, rfl, rfl, rfl⟩
        simp only [main, hload]
        simp only [hcur]
        simp [hne, hdns, hemp, hcontent]

/-- An IP-echo session resolving to `1.2.3.4`. -/
def ipSessionMatch : IpSession := .response 200 "ok" (.parsed (some "1.2.3.4"))

/-- A lookup session returning one record whose content is `1.2.3.4`. -/
def dnsSessionMatch : CfSession :=
  .response 200 "ok"
    (.parsed [⟨some "r1", some "a.example.com", some "1.2.3.4", none, none⟩] [] [])

/-- Witness for C1: the end-to-end match scenario — IP echo says `1.2.3.4`,
the record already holds `1.2.3.4` — exits 0 with no update call. -/
theorem reconcile_match_is_noop_witness :
    ∃ r, main envSample ipSessionMatch dnsSessionMatch (.transportError "unused") =
        .ok r ∧ r.exitCode = 0 ∧ r.updateCalled = false ∧ r.updateData = none :=
  reconcile_match_is_noop envSample ipSessionMatch dnsSessionMatch
    (.transportError "unused") configSample "1.2.3.4"
    ⟨some "r1", some "a.example.com", some "1.2.3.4", none, none⟩
    (by rfl) (by rfl) (by rfl) (by rfl)

/-- Claim C5: whenever `main` completes without an exception it returns
exit code 0 or 1, and it returns 0 exactly when the reconciliation
completed — the configuration loaded, the public IP resolved to a
non-empty string, the lookup found a (non-empty) record with a content
field, and either that content already equals the IP (no-op) or the update
call succeeded; every failure (configuration, IP resolution, lookup
NotFound or failure, update returning false) yields exit code 1. -/
theorem main_exit_code_iff :
    ∀ (environ : String → Option String) (ipSession : IpSession)
      (dnsSession putSession : CfSession) (r : RunResult),
      main environ ipSession dnsSession putSession = .ok r →
      (r.exitCode = 0 ∨ r.exitCode = 1) ∧
      (r.exitCode = 0 ↔
        ∃ (config : Config) (ip : String) (record : RecordDict) (existing_ip : String),
          (load_config_from_env environ).1 = some config ∧
          resolvedIp ipSession = some ip ∧
          recordLookup config dnsSession = some record ∧
          record.content = some existing_ip ∧
          (existing_ip = ip ∨ putSucceeds putSession = true)) := by
  intro environ ipSession dnsSession putSession r h
  rcases hload : load_config_from_env environ with ⟨c?, lg⟩
  cases c? with
  | none =>
    have hmain : main environ ipSession dnsSession putSession =
        .ok ⟨1, false, false, none⟩ := by
      simp [main, hload]
    have hV := Except.ok.inj (hmain.symm.trans h)
    subst hV
    refine ⟨Or.inr rfl, ?_⟩
    simp [hload]
  | some config =>
    rcases hcur : get_current_ip ipSession with e | pr
    · have hmain : main environ ipSession dnsSession putSession = .error e := by
        simp only [main, hload]
        simp [hcur]
      rw [hmain] at h
      exact Except.noConfusion h
    · obtain ⟨ip?, iplogs⟩ := pr
      cases ip? with
      | none =>
        have hmain : main environ ipSession dnsSession putSession =
            .ok ⟨1, false, false, none⟩ := by
          simp only [main, hload]
          simp [hcur]
        have hV := Except.ok.inj (hmain.symm.trans h)
        subst hV
        refine ⟨Or.inr rfl, ?_⟩
        simp [hload, resolvedIp, hcur]
      | some current_ip =>
        by_cases hne : current_ip = ""
        · subst hne
          have hmain : main environ ipSession dnsSession putSession =
              .ok ⟨1, false, false, none⟩ := by
            simp only [main, hload]
            simp [hcur]
          have hV := Except.ok.inj (hmain.symm.trans h)
          subst hV
          refine ⟨Or.inr rfl, ?_⟩
          simp [hload, resolvedIp, hcur]
        · rcases hdns : (get_dns_record config.zone_id config.record_name
              (build_headers config.api_token) dnsSession).1 with _ | dns_record
          · have hmain : main environ ipSession dnsSession putSession =
                .ok ⟨1, true, false, none⟩ := by
              simp only [main, hload]
              simp only [hcur]
              simp [hne, hdns]
            have hV := Except.ok.inj (hmain.symm.trans h)
            subst hV
            refine ⟨Or.inr rfl, ?_⟩
            simp [hload, recordLookup, hdns]
          · cases hemp : dns_record.isEmptyDict with
            | true =>
              have hmain : main environ ipSession dnsSession putSession =
                  .ok ⟨1, true, false, none⟩ := by
                simp only [main, hload]
                simp only [hcur]
                simp [hne, hdns, hemp]
              have hV := Except.ok.inj (hmain.symm.trans h)
              subst hV
              refine ⟨Or.inr rfl, ?_⟩
              simp [hload, recordLookup, hdns, hemp]
            | false =>
              cases hcontent : dns_record.content with
              | none =>
                have hmain : main environ ipSession dnsSession putSession =
                    .error (.keyError "content") := by
                  simp only [main, hload]
                  simp only [hcur]
                  simp [hne, hdns, hemp, hcontent]
                rw [hmain] at h
                exact Except.noConfusion h
              | some existing_ip =>
                have hres : resolvedIp ipSession = some current_ip := by
                  simp [resolvedIp, hcur, hne]
                have hlook : recordLookup config dnsSession = some dns_record := by
                  simp [recordLookup, hdns, hemp]
                by_cases heq : current_ip = existing_ip
                · subst heq
                  have hmain : main environ ipSession dnsSession putSession =
                      .ok ⟨0, true, false, none⟩ := by
                    simp only [main, hload]
                    simp only [hcur]
                    simp [hne, hdns, hemp, hcontent]
                  have hV := Except.ok.inj (hmain.symm.trans h)
                  subst hV
                  refine ⟨Or.inl rfl, ?_⟩
                  constructor
                  · intro _
                    exact ⟨config, current_ip, dns_record, current_ip,
                      by simp [hload], hres, hlook, hcontent, Or.inl rfl⟩
                  · intro _; rfl
                · rcases hupd : update_dns_record config.zone_id dns_record current_ip
                      (build_headers config.api_token) putSession with e | call
                  · have hmain : main environ ipSession dnsSession putSession =
                        .error e := by
                      simp only [main, hload]
                      simp only [hcur]
                      simp [hne, hdns, hemp, hcontent, heq, hupd]
                    rw [hmain] at h
                    exact Except.noConfusion h
                  · have hok := update_dns_record_ok_eq config.zone_id dns_record
                      current_ip (build_headers config.api_token) putSession call hupd
                    by_cases hco : call.ok = true
                    · have hmain : main environ ipSession dnsSession putSession =
                          .ok ⟨0, true, true, some call.data⟩ := by
                        simp only [main, hload]
                        simp only [hcur]
                        simp [hne, hdns, hemp, hcontent, heq, hupd, hco]
                      have hV := Except.ok.inj (hmain.symm.trans h)
                      subst hV
                      refine ⟨Or.inl rfl, ?_⟩
                      constructor
                      · intro _
                        exact ⟨config, current_ip, dns_record, existing_ip,
                          by simp [hload], hres, hlook, hcontent,
                          Or.inr (hok.symm.trans hco)⟩
                      · intro _; rfl
                    · have hcall : call.ok = false := by
                        revert hco; cases call.ok <;> simp
                      have hps : putSucceeds putSession = false := by
                        rw [hok] at hcall; exact hcall
                      have heq2 : ¬ existing_ip = current_ip := fun hh => heq hh.symm
                      have hmain : main environ ipSession dnsSession putSession =
                          .ok ⟨1, true, true, some call.data⟩ := by
                        simp only [main, hload]
                        simp only [hcur]
                        simp [hne, hdns, hemp, hcontent, heq, hupd, hcall]
                      have hV := Except.ok.inj (hmain.symm.trans h)
                      subst hV
                      refine ⟨Or.inr rfl, ?_⟩
                      simp [hload, resolvedIp, hcur, hne, recordLookup, hdns, hemp,
                        hcontent, heq2, hps]

/-- An IP-echo session resolving to `8.8.8.8` (mismatch scenario). -/
def ipSessionMismatch : IpSession := .response 200 "ok" (.parsed (some "8.8.8.8"))

/-- A PUT session accepting the update with a 2xx response. -/
def putSessionOk : CfSession := .response 200 "ok" (.parsed [] [] [])

/-- Witness for C5: the end-to-end mismatch scenario — the record holds
`1.2.3.4`, the echo says `8.8.8.8`, the PUT succeeds — exits 0. -/
theorem main_exit_code_iff_witness :
    ((⟨0, true, true, some ⟨"A", "a.example.com", "8.8.8.8", 1, false⟩⟩ :
        RunResult).exitCode = 0 ∨
      (⟨0, true, true, some ⟨"A", "a.example.com", "8.8.8.8", 1, false⟩⟩ :
        RunResult).exitCode = 1) ∧
    ((⟨0, true, true, some ⟨"A", "a.example.com", "8.8.8.8", 1, false⟩⟩ :
        RunResult).exitCode = 0 ↔
      ∃ (config : Config) (ip : String) (record : RecordDict) (existing_ip : String),
        (load_config_from_env envSample).1 = some config ∧
        resolvedIp ipSessionMismatch = some ip ∧
        recordLookup config dnsSessionMatch = some record ∧
        record.content = some existing_ip ∧
        (existing_ip = ip ∨ putSucceeds putSessionOk = true)) :=
  main_exit_code_iff envSample ipSessionMismatch dnsSessionMatch putSessionOk
    ⟨0, true, true, some ⟨"A", "a.example.com", "8.8.8.8", 1, false⟩⟩ (by rfl)

end DDNS

